import Mathlib

/-!
# Verification of the System-Resource-Monitor alerting core

A shallow embedding of `src/monitor.py` (class `ResourceMonitor`).  Python
floats and timestamps are modelled as rationals (`ℚ`), Python dicts keyed by
strings as association lists, and the external facilities the code calls
(psutil readings, the Telegram transport, the clock) as explicit parameters
of the embedded functions.  The statements proved below concern the alert
evaluation, cooldown gating, bounded history, counter, and state
persistence logic of the source.
-/

set_option autoImplicit false

/-- Mirrors the Python `AlertLevel(Enum)` with members INFO, WARNING,
CRITICAL, ERROR. -/
inductive AlertLevel where
  | INFO
  | WARNING
  | CRITICAL
  | ERROR
deriving DecidableEq, Repr

/-- The `.value` attribute of the Python enum member. -/
def AlertLevel.value : AlertLevel → String
  | .INFO => "INFO"
  | .WARNING => "WARNING"
  | .CRITICAL => "CRITICAL"
  | .ERROR => "ERROR"

/-- A Python `datetime.datetime`, abstracted to whole seconds since the
epoch plus a microsecond component (the precision `isoformat` preserves). -/
structure DateTime where
  epochSeconds : Int
  micro : Nat
deriving DecidableEq, Repr

/-- Models `datetime.isoformat()` as used by `Alert.to_dict`: an injective textual
encoding of the instant.  The calendar rendering of the external library is
abstracted; only injectivity and being a plain string matter here. -/
def DateTime.isoformat (d : DateTime) : String :=
  toString d.epochSeconds ++ "." ++ toString d.micro

/-- Mirrors the Python `Alert` class (fields of `__init__`). -/
structure Alert where
  level : AlertLevel
  resource : String
  message : String
  value : ℚ
  threshold : ℚ
  timestamp : DateTime
deriving DecidableEq, Repr

/-- The `self.current_metrics` dict. -/
structure CurrentMetrics where
  cpu_percent : ℚ
  memory_percent : ℚ
  disk_percent : ℚ
  network_sent_speed : ℚ
  network_recv_speed : ℚ
deriving DecidableEq, Repr

/-- The entry `self.stats['start_time']` is dynamically typed in the source: the
constructor stores a `datetime.now()`, while a value read back from JSON by
`load_state` would be whatever the file held (a string, after a successful
serialization). -/
inductive StartTimeVal where
  | dt (d : DateTime)
  | str (s : String)
deriving DecidableEq, Repr

/-- The `self.stats` dict: checks, alerts_triggered, notifications_sent,
start_time. -/
structure Stats where
  checks : Nat
  alerts_triggered : Nat
  notifications_sent : Nat
  start_time : StartTimeVal
deriving DecidableEq, Repr

/-- Section `config["monitoring"]["resources"]["cpu"]` / `["memory"]`. -/
structure ResourceCfg where
  enabled : Bool
  threshold : ℚ
deriving DecidableEq, Repr

/-- Section `config["monitoring"]["resources"]["disk"]`. -/
structure DiskCfg where
  enabled : Bool
  threshold : ℚ
  paths : List String
deriving DecidableEq, Repr

/-- Section `config["monitoring"]["resources"]["network"]`. -/
structure NetworkCfg where
  enabled : Bool
  threshold_sent_mbps : ℚ
  threshold_recv_mbps : ℚ
deriving DecidableEq, Repr

/-- The `monitoring` section of the YAML config relevant to the checks. -/
structure MonitoringCfg where
  notification_cooldown_seconds : ℚ
  cpu : ResourceCfg
  memory : ResourceCfg
  disk : DiskCfg
  network : NetworkCfg
deriving DecidableEq, Repr

/-- The defaults written by `create_default_config`. -/
def default_config : MonitoringCfg where
  notification_cooldown_seconds := 300
  cpu := ⟨true, 80⟩
  memory := ⟨true, 80⟩
  disk := ⟨true, 80, ["/"]⟩
  network := ⟨true, 10, 10⟩

/-- First-match lookup of a string-keyed Python dict modelled as an
association list (a Python dict has at most one entry per key, which
`dictSet` maintains). -/
def dictGet (d : List (String × ℚ)) (k : String) : Option ℚ :=
  match d with
  | [] => none
  | (k1, v) :: rest => if k1 = k then some v else dictGet rest k

/-- Assignment `d[k] = v` on the modelled dict: replace in place or append. -/
def dictSet (d : List (String × ℚ)) (k : String) (v : ℚ) : List (String × ℚ) :=
  match d with
  | [] => [(k, v)]
  | (k1, v1) :: rest => if k1 = k then (k, v) :: rest else (k1, v1) :: dictSet rest k v

/-- The mutable state of the single `ResourceMonitor` object that the
claims touch: alert history, cooldown table, stats, enable flag, previous
network counters, latest metrics snapshot, and the loaded configuration. -/
structure MonitorState where
  config : MonitoringCfg
  alert_history : List Alert
  last_alert_times : List (String × ℚ)
  stats : Stats
  monitoring_enabled : Bool
  prev_net_sent : Int
  prev_net_recv : Int
  prev_check_time : ℚ
  current_metrics : CurrentMetrics
deriving DecidableEq, Repr

/-- The object state as built by `ResourceMonitor.__init__` just before its
`load_state()` call: empty history, empty cooldown table, zeroed counters
with `start_time = datetime.now()`, previous network counters and check
time taken from the initial psutil reading and clock. -/
def initial_state (cfg : MonitoringCfg) (t0 : DateTime) (netSent0 netRecv0 : Int)
    (clock0 : ℚ) : MonitorState where
  config := cfg
  alert_history := []
  last_alert_times := []
  stats := ⟨0, 0, 0, .dt t0⟩
  monitoring_enabled := true
  prev_net_sent := netSent0
  prev_net_recv := netRecv0
  prev_check_time := clock0
  current_metrics := ⟨0, 0, 0, 0, 0⟩

/-- Models `ResourceMonitor.can_send_alert(resource, level)`.  `now` is the
`time.time()` value read inside the call.  Returns the boolean result
together with the updated object state (the table write happens inside the
call, before `True` is returned). -/
def can_send_alert (st : MonitorState) (resource : String) (level : AlertLevel)
    (now : ℚ) : Bool × MonitorState :=
  let cooldown := st.config.notification_cooldown_seconds
  let key := resource ++ "_" ++ level.value
  let last_time := (dictGet st.last_alert_times key).getD 0
  if now - last_time < cooldown then
    (false, st)
  else
    (true, { st with last_alert_times := dictSet st.last_alert_times key now })

/-- Models `ResourceMonitor.check_cpu`.  The psutil reading
`psutil.cpu_percent(interval=1)` is the parameter `cpu_percent`; `ts` is
the `datetime.now()` used for the alert. -/
def check_cpu (st : MonitorState) (cpu_percent : ℚ) (ts : DateTime) :
    MonitorState × List Alert :=
  let cfg := st.config.cpu
  if !cfg.enabled then (st, [])
  else
    let st := { st with current_metrics := { st.current_metrics with cpu_percent := cpu_percent } }
    if cpu_percent > cfg.threshold then
      (st, [{ level := if cpu_percent > 90 then .CRITICAL else .WARNING
              resource := "CPU"
              message := "Использование CPU превысило порог"
              value := cpu_percent
              threshold := cfg.threshold
              timestamp := ts }])
    else (st, [])

/-- Models `ResourceMonitor.check_memory`; `mem_percent` is
`psutil.virtual_memory().percent`. -/
def check_memory (st : MonitorState) (mem_percent : ℚ) (ts : DateTime) :
    MonitorState × List Alert :=
  let cfg := st.config.memory
  if !cfg.enabled then (st, [])
  else
    let st := { st with current_metrics := { st.current_metrics with memory_percent := mem_percent } }
    if mem_percent > cfg.threshold then
      (st, [{ level := if mem_percent > 90 then .CRITICAL else .WARNING
              resource := "Память"
              message := "Использование памяти превысило порог"
              value := mem_percent
              threshold := cfg.threshold
              timestamp := ts }])
    else (st, [])

/-- Outcome of `psutil.disk_usage(partition.mountpoint)` for one mount:
a percentage, a `PermissionError`, or any other exception. -/
inductive UsageResult where
  | ok (percent : ℚ)
  | permDenied
  | otherFailure
deriving DecidableEq, Repr

/-- One entry of `psutil.disk_partitions()` together with what reading its
usage would yield. -/
structure Partition where
  mountpoint : String
  usage : UsageResult
deriving DecidableEq, Repr

/-- The `for partition in psutil.disk_partitions()` loop body of
`check_disk`: mounts outside the configured path list (unless that list is
empty) are ignored, a `PermissionError` or any other exception is caught
and the loop continues, the root mount refreshes `current_metrics`, and a
usage strictly above the threshold appends one alert. -/
def check_disk_go (threshold : ℚ) (paths : List String) (ts : DateTime) :
    MonitorState → List Partition → MonitorState × List Alert
  | st, [] => (st, [])
  | st, p :: rest =>
    if p.mountpoint ∈ paths ∨ paths = [] then
      match p.usage with
      | .ok pct =>
        let st := if p.mountpoint = "/" then
            { st with current_metrics := { st.current_metrics with disk_percent := pct } }
          else st
        let here : List Alert :=
          if pct > threshold then
            [{ level := if pct > 90 then .CRITICAL else .WARNING
               resource := "Диск " ++ p.mountpoint
               message := "Использование диска превысило порог"
               value := pct
               threshold := threshold
               timestamp := ts }]
          else []
        let r := check_disk_go threshold paths ts st rest
        (r.1, here ++ r.2)
      | .permDenied => check_disk_go threshold paths ts st rest
      | .otherFailure => check_disk_go threshold paths ts st rest
    else check_disk_go threshold paths ts st rest

/-- Models `ResourceMonitor.check_disk`; `parts` is the `psutil.disk_partitions()`
listing with the usage each mount would report. -/
def check_disk (st : MonitorState) (parts : List Partition) (ts : DateTime) :
    MonitorState × List Alert :=
  let cfg := st.config.disk
  if !cfg.enabled then (st, [])
  else check_disk_go cfg.threshold cfg.paths ts st parts

/-- The `time_diff` of `check_network`: `current_time - self.prev_check_time`,
replaced by `1` only when it is exactly zero. -/
def net_time_diff (prev now : ℚ) : ℚ :=
  let d := now - prev
  if d = 0 then 1 else d

/-- One network rate of `check_network`: cumulative byte delta converted to
megabytes, then divided by the elapsed time. -/
def net_speed (prevBytes curBytes : Int) (time_diff : ℚ) : ℚ :=
  (((curBytes - prevBytes : Int) : ℚ) / (1024 * 1024)) / time_diff

/-- Models `ResourceMonitor.check_network`; `curSent`/`curRecv` are the cumulative
counters of `psutil.net_io_counters()`, `now` the `time.time()` reading. -/
def check_network (st : MonitorState) (curSent curRecv : Int) (now : ℚ)
    (ts : DateTime) : MonitorState × List Alert :=
  let cfg := st.config.network
  if !cfg.enabled then (st, [])
  else
    let time_diff := net_time_diff st.prev_check_time now
    let mb_sent_speed := net_speed st.prev_net_sent curSent time_diff
    let mb_recv_speed := net_speed st.prev_net_recv curRecv time_diff
    let st := { st with
      current_metrics := { st.current_metrics with
        network_sent_speed := mb_sent_speed
        network_recv_speed := mb_recv_speed }
      prev_net_sent := curSent
      prev_net_recv := curRecv
      prev_check_time := now }
    let a1 : List Alert :=
      if mb_sent_speed > cfg.threshold_sent_mbps then
        [{ level := .WARNING
           resource := "Сеть (исходящий трафик)"
           message := "Скорость отправки превысила порог"
           value := mb_sent_speed
           threshold := cfg.threshold_sent_mbps
           timestamp := ts }]
      else []
    let a2 : List Alert :=
      if mb_recv_speed > cfg.threshold_recv_mbps then
        [{ level := .WARNING
           resource := "Сеть (входящий трафик)"
           message := "Скорость получения превысила порог"
           value := mb_recv_speed
           threshold := cfg.threshold_recv_mbps
           timestamp := ts }]
      else []
    (st, a1 ++ a2)

/-- Models `ResourceMonitor.send_telegram_message`.  The HTTP transport is
external; `delivered` says whether the POST would return status 200 with
the configured transport enabled.  On success the call increments
`notifications_sent` and returns `true`. -/
def send_telegram_message (st : MonitorState) (delivered : Bool) :
    MonitorState × Bool :=
  if delivered then
    ({ st with stats := { st.stats with
        notifications_sent := st.stats.notifications_sent + 1 } }, true)
  else (st, false)

/-- The history update of the per-alert block in `check_resources`:
`self.alert_history.append(alert)` followed by
`if len(self.alert_history) > 100: self.alert_history.pop(0)`. -/
def record_alert (h : List Alert) (a : Alert) : List Alert :=
  let h2 := h ++ [a]
  if h2.length > 100 then h2.tail else h2

/-- One iteration of the `for alert in alerts` loop of `check_resources`:
append to the bounded history, bump `alerts_triggered`, then gate through
`can_send_alert` and, when it passes, hand the formatted message to
`send_telegram_message`. -/
def process_alert (st : MonitorState) (now : ℚ) (delivered : Bool) (a : Alert) :
    MonitorState :=
  let st := { st with
    alert_history := record_alert st.alert_history a
    stats := { st.stats with alerts_triggered := st.stats.alerts_triggered + 1 } }
  let gate := can_send_alert st a.resource a.level now
  if gate.1 then (send_telegram_message gate.2 delivered).1 else gate.2

/-- The external observations one tick consumes: the psutil readings, the
clock values, and whether the notification transport would deliver. -/
structure TickEnv where
  cpu : ℚ
  memory : ℚ
  partitions : List Partition
  netSent : Int
  netRecv : Int
  now : ℚ
  ts : DateTime
  delivered : Bool
deriving DecidableEq, Repr

/-- Models `ResourceMonitor.check_resources`: an immediate no-op when monitoring
is disabled; otherwise bump `checks`, run the four category checks, and
push every produced alert through the record-and-gate loop.  Returns the
updated state and the list of alerts the tick produced. -/
def check_resources (st : MonitorState) (env : TickEnv) :
    MonitorState × List Alert :=
  if !st.monitoring_enabled then (st, [])
  else
    let st := { st with stats := { st.stats with checks := st.stats.checks + 1 } }
    let r1 := check_cpu st env.cpu env.ts
    let r2 := check_memory r1.1 env.memory env.ts
    let r3 := check_disk r2.1 env.partitions env.ts
    let r4 := check_network r3.1 env.netSent env.netRecv env.now env.ts
    let alerts := r1.2 ++ r2.2 ++ r3.2 ++ r4.2
    (alerts.foldl (fun s a => process_alert s env.now env.delivered a) r4.1, alerts)

/-- A well-formed parsed `monitor_state.json` document as `load_state`
consumes it: the `alert_history` array (missing key = empty), and the
optional `stats` and `last_alert_times` entries. -/
structure StateFile where
  alert_history : List Alert
  stats : Option Stats
  last_alert_times : Option (List (String × ℚ))
deriving DecidableEq, Repr

/-- Models `ResourceMonitor.load_state`: when the file is absent nothing changes;
otherwise the history is rebuilt from the file, `stats` is taken from the
file when present (keeping the current value otherwise), and
`last_alert_times` is taken from the file, defaulting to the empty dict. -/
def load_state (st : MonitorState) : Option StateFile → MonitorState
  | none => st
  | some f =>
    { st with
      alert_history := f.alert_history
      stats := f.stats.getD st.stats
      last_alert_times := (f.last_alert_times.getD []).map id }

/-- A Python value as `json.dump` sees it: the JSON-encodable leaves and
containers, plus a `datetime.datetime` object, which `json.dump` rejects
with a `TypeError`. -/
inductive PyVal where
  | pyInt (n : Int)
  | pyFloat (q : ℚ)
  | pyStr (s : String)
  | pyBool (b : Bool)
  | pyNone
  | pyList (xs : List PyVal)
  | pyDict (kvs : List (String × PyVal))
  | pyDatetime (d : DateTime)

mutual

/-- Whether `json.dump` accepts the value (the default encoder handles
dict, list, str, int, float, bool and None; anything else, in particular a
`datetime`, raises `TypeError`). -/
def py_serializable : PyVal → Bool
  | .pyInt _ => true
  | .pyFloat _ => true
  | .pyStr _ => true
  | .pyBool _ => true
  | .pyNone => true
  | .pyList xs => py_serializable_list xs
  | .pyDict kvs => py_serializable_kvs kvs
  | .pyDatetime _ => false

def py_serializable_list : List PyVal → Bool
  | [] => true
  | x :: xs => py_serializable x && py_serializable_list xs

def py_serializable_kvs : List (String × PyVal) → Bool
  | [] => true
  | (_, v) :: kvs => py_serializable v && py_serializable_kvs kvs

end

/-- Models `json.dump` up to concrete text: it succeeds exactly on
serializable values, and the written document is identified with the value
tree it encodes. -/
def json_dump (v : PyVal) : Option PyVal :=
  if py_serializable v then some v else none

/-- Models `Alert.to_dict`. -/
def alert_to_dict (a : Alert) : PyVal :=
  .pyDict
    [("level", .pyStr a.level.value),
     ("resource", .pyStr a.resource),
     ("message", .pyStr a.message),
     ("value", .pyFloat a.value),
     ("threshold", .pyFloat a.threshold),
     ("timestamp", .pyStr a.timestamp.isoformat)]

/-- The Python object `self.stats` handed to `json.dump`: the counters are
ints and `start_time` is whatever object the dict holds — the
`datetime.now()` stored by the constructor, or a string if a loaded file
put one there. -/
def stats_to_pyval (s : Stats) : PyVal :=
  .pyDict
    [("checks", .pyInt s.checks),
     ("alerts_triggered", .pyInt s.alerts_triggered),
     ("notifications_sent", .pyInt s.notifications_sent),
     ("start_time", match s.start_time with
        | .dt d => .pyDatetime d
        | .str s1 => .pyStr s1)]

/-- The `state` dict built inside `save_state`. -/
def state_doc (st : MonitorState) : PyVal :=
  .pyDict
    [("alert_history", .pyList (st.alert_history.map alert_to_dict)),
     ("stats", stats_to_pyval st.stats),
     ("last_alert_times", .pyDict (st.last_alert_times.map (fun kv => (kv.1, .pyFloat kv.2))))]

/-- Models `ResourceMonitor.save_state`: build the state dict and `json.dump` it
to `monitor_state.json`; `none` models the `except` branch (the dump
raised, the error was logged, and no valid document was produced). -/
def save_state (st : MonitorState) : Option PyVal :=
  json_dump (state_doc st)

/-- One externally triggered operation on the monitor state among those the
bounded-history claim quantifies over: a tick of the monitoring loop, or a
`load_state` from a (possibly absent) state file. -/
inductive MonOp where
  | tick (env : TickEnv)
  | fileLoad (f : Option StateFile)
deriving DecidableEq, Repr

/-- Run a sequence of operations left to right. -/
def run_ops (st : MonitorState) : List MonOp → MonitorState
  | [] => st
  | .tick env :: rest => run_ops (check_resources st env).1 rest
  | .fileLoad f :: rest => run_ops (load_state st f) rest

/-! ## Dictionary lemmas -/

theorem dictGet_dictSet_self (d : List (String × ℚ)) (k : String) (v : ℚ) :
    dictGet (dictSet d k v) k = some v := by
  induction d with
  | nil => simp [dictGet, dictSet]
  | cons hd tl ih =>
    obtain ⟨k1, v1⟩ := hd
    by_cases hk : k1 = k
    · simp [dictGet, dictSet, hk]
    · simp [dictGet, dictSet, hk, ih]

/-! ## Basic facts about the gate -/

theorem can_send_alert_config (st : MonitorState) (r : String) (l : AlertLevel)
    (now : ℚ) : (can_send_alert st r l now).2.config = st.config := by
  unfold can_send_alert
  dsimp only
  split <;> rfl

theorem can_send_alert_history (st : MonitorState) (r : String) (l : AlertLevel)
    (now : ℚ) : (can_send_alert st r l now).2.alert_history = st.alert_history := by
  unfold can_send_alert
  dsimp only
  split <;> rfl

/-- C4 counterexample state: a freshly constructed monitor with the default
configuration (cooldown 300 s) and an empty cooldown table. -/
def c4_state : MonitorState := initial_state default_config ⟨0, 0⟩ 0 0 0

/-- The gate as the spec words it: a missing entry is infinitely elapsed,
hence always passes. -/
def claim_gate (table : List (String × ℚ)) (key : String) (now cooldown : ℚ) : Bool :=
  match dictGet table key with
  | none => true
  | some t => decide (cooldown ≤ now - t)

/-- C4, counterexample: with an empty cooldown table and a clock reading of
100 s (less than the 300 s cooldown), the spec's gate ("missing entry
always passes") answers true, but `can_send_alert` answers false, because
the code defaults a missing entry to time 0 rather than to infinitely
elapsed. -/
theorem gate_missing_entry_blocks :
    c4_state.last_alert_times = []
    ∧ claim_gate c4_state.last_alert_times ("CPU" ++ "_" ++ AlertLevel.WARNING.value)
        100 c4_state.config.notification_cooldown_seconds = true
    ∧ (can_send_alert c4_state "CPU" .WARNING 100).1 = false := by
  refine ⟨rfl, rfl, ?_⟩
  simp [can_send_alert, c4_state, initial_state, default_config, dictGet]
  all_goals norm_num

/-- C4 (amended): `can_send_alert` returns true iff `now` minus the stored
last-notification time is at least the cooldown, where a missing entry is
treated as last-notification time 0 (the epoch) — so a missing entry passes
iff `now ≥ cooldown`, not unconditionally — and exactly when it returns
true it overwrites the entry for that key with `now` inside the same call,
leaving the table untouched otherwise. -/
theorem gate_iff_and_check_and_set (st : MonitorState) (r : String)
    (l : AlertLevel) (now : ℚ) :
    ((can_send_alert st r l now).1 = true
      ↔ st.config.notification_cooldown_seconds
          ≤ now - ((dictGet st.last_alert_times (r ++ "_" ++ l.value)).getD 0))
    ∧ (can_send_alert st r l now).2
      = (if (can_send_alert st r l now).1 then
          { st with last_alert_times :=
              dictSet st.last_alert_times (r ++ "_" ++ l.value) now }
        else st) := by
  by_cases h : now - ((dictGet st.last_alert_times (r ++ "_" ++ l.value)).getD 0)
      < st.config.notification_cooldown_seconds
  · simp [can_send_alert, h, not_le.mpr h]
  · simp [can_send_alert, h, not_lt.mp h]

/-- C1 counterexample state: default configuration (cooldown 300 s) whose
cooldown table records a last notification for (CPU, WARNING) at time 0. -/
def c1_state : MonitorState :=
  { initial_state default_config ⟨0, 0⟩ 0 0 0 with
    last_alert_times := [("CPU_WARNING", 0)] }

/-- C1, counterexample: two (CPU, WARNING) alerts gated 1 s apart (at
t = 299 and t = 300, cooldown 300 s, last notification at t = 0).  The
first is suppressed — so the stored time stays 0 — and the second passes
the gate: `can_send_alert` does not return false for the second of two
alerts less than `cooldownSeconds` apart. -/
theorem cooldown_second_alert_can_pass :
    ((300 : ℚ) - 299 < c1_state.config.notification_cooldown_seconds)
    ∧ (can_send_alert c1_state "CPU" .WARNING 299).1 = false
    ∧ (can_send_alert (can_send_alert c1_state "CPU" .WARNING 299).2
        "CPU" .WARNING 300).1 = true := by
  refine ⟨by norm_num [c1_state, initial_state, default_config], ?_, ?_⟩ <;>
    · simp [can_send_alert, c1_state, initial_state, default_config, dictGet, dictSet,
        AlertLevel.value]
      all_goals norm_num

/-- C1 (amended): of two alerts for the same (resource, severity) pair
gated less than `cooldownSeconds` apart, at most one passes the gate; in
particular, whenever the first results in a sent notification the second
is suppressed. -/
theorem cooldown_not_both_sent (st : MonitorState) (r : String) (l : AlertLevel)
    (t1 t2 : ℚ) (h : t2 - t1 < st.config.notification_cooldown_seconds) :
    (can_send_alert st r l t1).1 = false
    ∨ (can_send_alert (can_send_alert st r l t1).2 r l t2).1 = false := by
  by_cases h1 : t1 - ((dictGet st.last_alert_times (r ++ "_" ++ l.value)).getD 0)
      < st.config.notification_cooldown_seconds
  · left
    simp [can_send_alert, h1]
  · right
    have e2 : (can_send_alert st r l t1).2
        = { st with last_alert_times := dictSet st.last_alert_times (r ++ "_" ++ l.value) t1 } := by
      simp [can_send_alert, h1]
    rw [e2]
    simp [can_send_alert, dictGet_dictSet_self, h]

/-- Witness for `cooldown_not_both_sent` at a concrete input: the same
state as the counterexample, gating at t = 0 and t = 100. -/
theorem cooldown_not_both_sent_witness :
    ((100 : ℚ) - 0 < c1_state.config.notification_cooldown_seconds)
    ∧ ((can_send_alert c1_state "CPU" .WARNING 0).1 = false
       ∨ (can_send_alert (can_send_alert c1_state "CPU" .WARNING 0).2
           "CPU" .WARNING 100).1 = false) :=
  ⟨by norm_num [c1_state, initial_state, default_config],
   cooldown_not_both_sent c1_state "CPU" .WARNING 0 100
     (by norm_num [c1_state, initial_state, default_config])⟩

/-! ## Disabled monitoring -/

theorem check_resources_disabled (st : MonitorState) (env : TickEnv)
    (h : st.monitoring_enabled = false) : check_resources st env = (st, []) := by
  simp [check_resources, h]

/-- C5 counterexample state: a fresh monitor with monitoring disabled and
all counters at zero. -/
def c5_state : MonitorState :=
  { initial_state default_config ⟨0, 0⟩ 0 0 0 with monitoring_enabled := false }

/-- C5 counterexample tick: every reading breaches its default threshold
(CPU 95 > 80, memory 95 > 80, root disk 95 > 80, 10 MB sent in 1 s
> 10 MB/s would tie, so 20 MB are sent). -/
def c5_env : TickEnv :=
  { cpu := 95, memory := 95, partitions := [⟨"/", .ok 95⟩],
    netSent := 20971520, netRecv := 0, now := 1, ts := ⟨0, 0⟩, delivered := true }

/-- C5, counterexample: with monitoring disabled, a tick whose metrics
exceed the thresholds leaves `checks` unchanged — `check_resources`
returns before incrementing the counter, so `checksPerformed` does not
"keep incrementing" as the claim states. -/
theorem disabled_tick_skips_checks_counter :
    c5_env.cpu > c5_state.config.cpu.threshold
    ∧ c5_state.monitoring_enabled = false
    ∧ ¬((check_resources c5_state c5_env).1.stats.checks
        = c5_state.stats.checks + 1) := by
  refine ⟨by norm_num [c5_env, c5_state, initial_state, default_config], rfl, ?_⟩
  rw [check_resources_disabled c5_state c5_env rfl]
  simp

/-- C5 (amended): with monitoring disabled a tick is a complete no-op —
`checksPerformed` does not keep incrementing; it stays constant, and
`alertsTriggered` stays constant as well, even when metrics exceed their
thresholds. -/
theorem disabled_ticks_freeze_counters (st : MonitorState) (envs : List TickEnv)
    (h : st.monitoring_enabled = false) :
    (run_ops st (envs.map MonOp.tick)).stats.checks = st.stats.checks
    ∧ (run_ops st (envs.map MonOp.tick)).stats.alerts_triggered
        = st.stats.alerts_triggered := by
  have key : run_ops st (envs.map MonOp.tick) = st := by
    induction envs with
    | nil => rfl
    | cons e es ih =>
      simp only [List.map_cons, run_ops, check_resources_disabled st e h]
      exact ih
  rw [key]
  exact ⟨rfl, rfl⟩

/-- Witness for `disabled_ticks_freeze_counters`: one breaching tick on
the disabled fresh monitor. -/
theorem disabled_ticks_freeze_counters_witness :
    c5_state.monitoring_enabled = false
    ∧ (run_ops c5_state ([c5_env].map MonOp.tick)).stats.checks
        = c5_state.stats.checks
    ∧ (run_ops c5_state ([c5_env].map MonOp.tick)).stats.alerts_triggered
        = c5_state.stats.alerts_triggered :=
  ⟨rfl, (disabled_ticks_freeze_counters c5_state [c5_env] rfl).1,
    (disabled_ticks_freeze_counters c5_state [c5_env] rfl).2⟩

/-! ## Bounded history -/

theorem send_telegram_history (st : MonitorState) (delivered : Bool) :
    (send_telegram_message st delivered).1.alert_history = st.alert_history := by
  unfold send_telegram_message
  split <;> rfl

theorem record_alert_length_le (h : List Alert) (a : Alert)
    (hb : h.length ≤ 100) : (record_alert h a).length ≤ 100 := by
  unfold record_alert
  dsimp only
  split
  · rw [List.length_tail]
    simp only [List.length_append, List.length_singleton]
    omega
  · rename_i hle
    simp only [List.length_append, List.length_singleton] at hle ⊢
    omega

theorem process_alert_history (st : MonitorState) (now : ℚ) (delivered : Bool)
    (a : Alert) :
    (process_alert st now delivered a).alert_history
      = record_alert st.alert_history a := by
  unfold process_alert
  dsimp only
  split
  · rw [send_telegram_history, can_send_alert_history]
  · rw [can_send_alert_history]

theorem check_cpu_history (st : MonitorState) (v : ℚ) (ts : DateTime) :
    (check_cpu st v ts).1.alert_history = st.alert_history := by
  unfold check_cpu
  dsimp only
  split
  · rfl
  · split <;> rfl

theorem check_memory_history (st : MonitorState) (v : ℚ) (ts : DateTime) :
    (check_memory st v ts).1.alert_history = st.alert_history := by
  unfold check_memory
  dsimp only
  split
  · rfl
  · split <;> rfl

theorem check_disk_go_history (threshold : ℚ) (paths : List String)
    (ts : DateTime) (ps : List Partition) :
    ∀ st : MonitorState,
      (check_disk_go threshold paths ts st ps).1.alert_history
        = st.alert_history := by
  induction ps with
  | nil => intro st; rfl
  | cons p rest ih =>
    intro st
    simp only [check_disk_go]
    split
    · split
      · dsimp only
        rw [ih]
        split <;> rfl
      · exact ih st
      · exact ih st
    · exact ih st

theorem check_disk_history (st : MonitorState) (parts : List Partition)
    (ts : DateTime) :
    (check_disk st parts ts).1.alert_history = st.alert_history := by
  unfold check_disk
  dsimp only
  split
  · rfl
  · exact check_disk_go_history _ _ _ _ _

theorem check_network_history (st : MonitorState) (curSent curRecv : Int)
    (now : ℚ) (ts : DateTime) :
    (check_network st curSent curRecv now ts).1.alert_history
      = st.alert_history := by
  unfold check_network
  dsimp only
  split
  · rfl
  · rfl

theorem foldl_process_alert_length (now : ℚ) (delivered : Bool)
    (l : List Alert) :
    ∀ st : MonitorState, st.alert_history.length ≤ 100 →
      (l.foldl (fun s a => process_alert s now delivered a) st).alert_history.length
        ≤ 100 := by
  induction l with
  | nil => intro st h; exact h
  | cons a as ih =>
    intro st h
    rw [List.foldl_cons]
    refine ih _ ?_
    rw [process_alert_history]
    exact record_alert_length_le _ _ h

theorem check_resources_history_length (st : MonitorState) (env : TickEnv)
    (h : st.alert_history.length ≤ 100) :
    (check_resources st env).1.alert_history.length ≤ 100 := by
  unfold check_resources
  dsimp only
  split
  · exact h
  · refine foldl_process_alert_length _ _ _ _ ?_
    rw [check_network_history, check_disk_history, check_memory_history,
      check_cpu_history]
    exact h

/-- The side condition on a sequence of operations under which the
bounded-history invariant survives `load_state`: every state file the
sequence loads holds at most 100 alerts (as any file written by a monitor
whose in-memory history respected the cap would). -/
def loads_bounded (ops : List MonOp) : Prop :=
  ∀ f : StateFile, MonOp.fileLoad (some f) ∈ ops → f.alert_history.length ≤ 100

/-- A sample alert for concrete histories and state files. -/
def sample_alert : Alert :=
  ⟨.WARNING, "CPU", "Использование CPU превысило порог", 95, 80, ⟨0, 0⟩⟩

/-- A syntactically valid state file holding 101 alerts. -/
def c2_big_file : StateFile := ⟨List.replicate 101 sample_alert, none, none⟩

/-- C2 counterexample start state: a fresh monitor with empty history. -/
def c2_state : MonitorState := initial_state default_config ⟨0, 0⟩ 0 0 0

/-- C2, counterexample: `load_state` installs the file's alert list
verbatim, with no re-capping — a single load operation of a 101-entry file
takes the history length to 101, so the cap does not hold after arbitrary
sequences of ticks and state loads. -/
theorem history_load_exceeds_cap :
    c2_state.alert_history.length ≤ 100
    ∧ ¬((run_ops c2_state [MonOp.fileLoad (some c2_big_file)]).alert_history.length
        ≤ 100) := by
  constructor
  · simp [c2_state, initial_state]
  · simp [run_ops, load_state, c2_big_file]

/-- C2 (amended): after any sequence of ticks and state loads in which
every loaded file holds at most 100 alerts (in particular, files produced
from in-cap states), the history length stays at most 100; and the
append performed by a tick evicts exactly the front (oldest) entry when
the history is at the cap, and evicts nothing below the cap. -/
theorem alert_history_bounded_fifo :
    (∀ (st : MonitorState) (ops : List MonOp),
      st.alert_history.length ≤ 100 → loads_bounded ops →
      (run_ops st ops).alert_history.length ≤ 100)
    ∧ (∀ (h : List Alert) (a : Alert), h.length = 100 →
        record_alert h a = h.tail ++ [a])
    ∧ (∀ (h : List Alert) (a : Alert), h.length < 100 →
        record_alert h a = h ++ [a]) := by
  refine ⟨?_, ?_, ?_⟩
  · intro st ops
    induction ops generalizing st with
    | nil => intro hb _; exact hb
    | cons op rest ih =>
      intro hb hlb
      cases op with
      | tick env =>
        simp only [run_ops]
        exact ih _ (check_resources_history_length _ _ hb)
          (fun f hf => hlb f (List.mem_cons_of_mem _ hf))
      | fileLoad f =>
        cases f with
        | none =>
          simp only [run_ops, load_state]
          exact ih _ hb (fun f1 hf => hlb f1 (List.mem_cons_of_mem _ hf))
        | some f1 =>
          simp only [run_ops]
          refine ih _ ?_ (fun f2 hf => hlb f2 (List.mem_cons_of_mem _ hf))
          have e : (load_state st (some f1)).alert_history = f1.alert_history := rfl
          rw [e]
          exact hlb f1 (List.mem_cons_self _ _)
  · intro h a hlen
    unfold record_alert
    dsimp only
    have hgt : (h ++ [a]).length > 100 := by
      simp only [List.length_append, List.length_singleton]
      omega
    rw [if_pos hgt]
    cases h with
    | nil => simp at hlen
    | cons x xs => rfl
  · intro h a hlen
    unfold record_alert
    dsimp only
    have hng : ¬((h ++ [a]).length > 100) := by
      simp only [List.length_append, List.length_singleton]
      omega
    rw [if_neg hng]

/-- Witness for `alert_history_bounded_fifo`: a run consisting of one
breaching tick and one absent-file load from a fresh monitor, an eviction
at a 100-entry history, and a plain append at a 5-entry history. -/
theorem alert_history_bounded_fifo_witness :
    (c2_state.alert_history.length ≤ 100
      ∧ loads_bounded [MonOp.tick c5_env, MonOp.fileLoad none]
      ∧ (run_ops c2_state [MonOp.tick c5_env, MonOp.fileLoad none]).alert_history.length
          ≤ 100)
    ∧ ((List.replicate 100 sample_alert).length = 100
      ∧ record_alert (List.replicate 100 sample_alert) sample_alert
          = (List.replicate 100 sample_alert).tail ++ [sample_alert])
    ∧ ((List.replicate 5 sample_alert).length < 100
      ∧ record_alert (List.replicate 5 sample_alert) sample_alert
          = List.replicate 5 sample_alert ++ [sample_alert]) := by
  have hlb : loads_bounded [MonOp.tick c5_env, MonOp.fileLoad none] := by
    intro f hf
    simp [loads_bounded] at hf
  refine ⟨⟨by simp [c2_state, initial_state], hlb, ?_⟩, ⟨by simp, ?_⟩, ⟨by simp, ?_⟩⟩
  · exact alert_history_bounded_fifo.1 c2_state [MonOp.tick c5_env, MonOp.fileLoad none]
      (by simp [c2_state, initial_state]) hlb
  · exact alert_history_bounded_fifo.2.1 _ _ (by simp)
  · exact alert_history_bounded_fifo.2.2 _ _ (by simp)

/-! ## State persistence -/

theorem alert_to_dict_serializable (a : Alert) :
    py_serializable (alert_to_dict a) = true := by
  simp [alert_to_dict, py_serializable, py_serializable_kvs]

theorem alert_list_serializable (l : List Alert) :
    py_serializable_list (l.map alert_to_dict) = true := by
  induction l with
  | nil => simp [py_serializable_list]
  | cons a tl ih =>
    simp [py_serializable_list, alert_to_dict_serializable, ih]

theorem times_dict_serializable (d : List (String × ℚ)) :
    py_serializable_kvs (d.map (fun kv => (kv.1, .pyFloat kv.2))) = true := by
  induction d with
  | nil => simp [py_serializable_kvs]
  | cons kv tl ih =>
    simp [py_serializable_kvs, py_serializable, ih]

/-- C3: `save_state` cannot succeed on any state whose `stats` dict holds a
`datetime` under `start_time` — which is what the constructor always puts
there and what every state reachable without a successful load carries.
The `state` dict is built with that object inside and handed to
`json.dump`, which rejects `datetime` with a `TypeError`; the exception is
caught and logged, and no valid state document is produced, so
`Load(Save(...))` cannot reproduce the state: the code contradicts the
spec's required round-trip. -/
theorem save_state_rejects_datetime (st : MonitorState) (d : DateTime)
    (h : st.stats.start_time = .dt d) : save_state st = none := by
  unfold save_state json_dump
  have hs : py_serializable (state_doc st) = false := by
    simp [state_doc, py_serializable, py_serializable_kvs, stats_to_pyval, h,
      alert_list_serializable, times_dict_serializable]
  simp [hs]

/-- C3 failing input: the freshly constructed monitor state itself. -/
def c3_state : MonitorState := initial_state default_config ⟨1700000000, 0⟩ 0 0 0

/-- Witness for `save_state_rejects_datetime` on the initial state: the
very first `save_state` of a fresh monitor already fails. -/
theorem save_state_rejects_datetime_witness :
    c3_state.stats.start_time = .dt ⟨1700000000, 0⟩
    ∧ save_state c3_state = none :=
  ⟨rfl, save_state_rejects_datetime c3_state ⟨1700000000, 0⟩ rfl⟩

/-! ## Network rate computation -/

/-- The claim's network-rate formula, written from the spec's words:
`(currentCumulativeBytes - previousCumulativeBytes) / max(elapsedSeconds, 1)
/ (1024*1024)`, whose divisor is never below one second. -/
def claim_net_rate (prevBytes curBytes : Int) (elapsed : ℚ) : ℚ :=
  ((curBytes - prevBytes : Int) : ℚ) / (max elapsed 1) / (1024 * 1024)

/-- The rate the source actually computes, as a standalone formula: the
byte delta over the elapsed time, with `1` substituted only when the
elapsed time is exactly zero. -/
def source_net_rate (prevBytes curBytes : Int) (elapsed : ℚ) : ℚ :=
  ((curBytes - prevBytes : Int) : ℚ) / (if elapsed = 0 then 1 else elapsed) / (1024 * 1024)

/-- C6 counterexample state: a fresh monitor, previous counters 0, previous
check time 0. -/
def c6_state : MonitorState := initial_state default_config ⟨0, 0⟩ 0 0 0

/-- C6, counterexample: with 1 MiB sent over an elapsed interval of 1/2 s,
the code stores a rate of 2 MB/s (dividing by the raw 1/2-second
interval), while the claim's `max(elapsed, 1)` formula yields 1 MB/s — the
code's divisor does go below one second. -/
theorem network_rate_not_max_formula :
    ¬((check_network c6_state 1048576 0 (1/2) ⟨0, 0⟩).1.current_metrics.network_sent_speed
      = claim_net_rate c6_state.prev_net_sent 1048576 ((1/2) - c6_state.prev_check_time)) := by
  have hcode :
      (check_network c6_state 1048576 0 (1/2) ⟨0, 0⟩).1.current_metrics.network_sent_speed
        = 2 := by
    simp [check_network, net_speed, net_time_diff, c6_state, initial_state, default_config]
    all_goals norm_num
  have hclaim :
      claim_net_rate c6_state.prev_net_sent 1048576 ((1/2) - c6_state.prev_check_time)
        = 1 := by
    have hmax : max ((1:ℚ)/2 - 0) 1 = 1 := by
      rw [max_eq_right]
      norm_num
    simp [claim_net_rate, c6_state, initial_state, hmax]
    norm_num
  rw [hcode, hclaim]
  norm_num

/-- C6 (amended): when the network check is enabled, the stored send and
receive rates equal the byte delta divided by the elapsed interval and by
1024*1024, where the divisor is the raw `elapsedSeconds` with `1`
substituted only when it is exactly zero — not `max(elapsedSeconds, 1)`;
a positive elapsed interval below one second is used as-is. -/
theorem network_rate_divisor (st : MonitorState) (curSent curRecv : Int)
    (now : ℚ) (ts : DateTime) (h : st.config.network.enabled = true) :
    ((check_network st curSent curRecv now ts).1.current_metrics.network_sent_speed
      = source_net_rate st.prev_net_sent curSent (now - st.prev_check_time))
    ∧ ((check_network st curSent curRecv now ts).1.current_metrics.network_recv_speed
      = source_net_rate st.prev_net_recv curRecv (now - st.prev_check_time)) := by
  unfold check_network net_time_diff net_speed source_net_rate
  simp only [h, Bool.not_true, Bool.false_eq_true, if_false]
  constructor <;>
    · dsimp only
      rw [div_div, div_div, mul_comm]

/-- Witness for `network_rate_divisor`: 2 MiB sent over 2 s on the fresh
monitor. -/
theorem network_rate_divisor_witness :
    c6_state.config.network.enabled = true
    ∧ ((check_network c6_state 2097152 0 2 ⟨0, 0⟩).1.current_metrics.network_sent_speed
      = source_net_rate c6_state.prev_net_sent 2097152 (2 - c6_state.prev_check_time))
    ∧ ((check_network c6_state 2097152 0 2 ⟨0, 0⟩).1.current_metrics.network_recv_speed
      = source_net_rate c6_state.prev_net_recv 0 (2 - c6_state.prev_check_time)) :=
  ⟨rfl, (network_rate_divisor c6_state 2097152 0 2 ⟨0, 0⟩ rfl).1,
    (network_rate_divisor c6_state 2097152 0 2 ⟨0, 0⟩ rfl).2⟩

/-! ## Strict threshold comparison -/

/-- C7 (confirmed): in all four resource checks the breach comparison is
strict greater-than, so an observed value exactly equal to the configured
threshold produces no alert; in particular a threshold of 100 can never
trigger on a 100% reading. -/
theorem threshold_equality_no_alert :
    (∀ (st : MonitorState) (ts : DateTime),
      (check_cpu st st.config.cpu.threshold ts).2 = [])
    ∧ (∀ (st : MonitorState) (ts : DateTime),
      (check_memory st st.config.memory.threshold ts).2 = [])
    ∧ (∀ (st : MonitorState) (mp : String) (ts : DateTime),
      (check_disk st [⟨mp, .ok st.config.disk.threshold⟩] ts).2 = [])
    ∧ (∀ (st : MonitorState) (curSent curRecv : Int) (now : ℚ) (ts : DateTime),
      net_speed st.prev_net_sent curSent (net_time_diff st.prev_check_time now)
          = st.config.network.threshold_sent_mbps →
      net_speed st.prev_net_recv curRecv (net_time_diff st.prev_check_time now)
          = st.config.network.threshold_recv_mbps →
      (check_network st curSent curRecv now ts).2 = []) := by
  refine ⟨?_, ?_, ?_, ?_⟩
  · intro st ts
    simp only [check_cpu]
    split
    · rfl
    · simp
  · intro st ts
    simp only [check_memory]
    split
    · rfl
    · simp
  · intro st mp ts
    simp only [check_disk, check_disk_go]
    split
    · rfl
    · split
      · simp [check_disk_go]
      · rfl
  · intro st curSent curRecv now ts h1 h2
    simp only [check_network]
    split
    · rfl
    · rw [h1, h2]
      simp

/-- Witness for `threshold_equality_no_alert`: a monitor configured with a
CPU threshold of 100 reading exactly 100%, the default memory and disk
thresholds reading exactly 80%, and network counters producing exactly the
10 MB/s thresholds over 1 s. -/
def c7_state : MonitorState :=
  initial_state { default_config with cpu := ⟨true, 100⟩ } ⟨0, 0⟩ 0 0 0

theorem threshold_equality_no_alert_witness :
    ((check_cpu c7_state c7_state.config.cpu.threshold ⟨0, 0⟩).2 = [])
    ∧ ((check_memory c7_state c7_state.config.memory.threshold ⟨0, 0⟩).2 = [])
    ∧ ((check_disk c7_state [⟨"/", .ok c7_state.config.disk.threshold⟩] ⟨0, 0⟩).2 = [])
    ∧ ((check_network c7_state 10485760 10485760 1 ⟨0, 0⟩).2 = []) :=
  ⟨threshold_equality_no_alert.1 c7_state ⟨0, 0⟩,
   threshold_equality_no_alert.2.1 c7_state ⟨0, 0⟩,
   threshold_equality_no_alert.2.2.1 c7_state "/" ⟨0, 0⟩,
   threshold_equality_no_alert.2.2.2 c7_state 10485760 10485760 1 ⟨0, 0⟩
     (by simp [net_speed, net_time_diff, c7_state, initial_state, default_config]; norm_num)
     (by simp [net_speed, net_time_diff, c7_state, initial_state, default_config]; norm_num)⟩

/-! ## Severity assignment -/

theorem mem_check_cpu_level {st : MonitorState} {v : ℚ} {ts : DateTime}
    {a : Alert} (h : a ∈ (check_cpu st v ts).2) :
    a.level = if v > 90 then AlertLevel.CRITICAL else AlertLevel.WARNING := by
  simp only [check_cpu] at h
  split at h
  · simp at h
  · split at h
    · simp at h
      subst h
      rfl
    · simp at h

theorem mem_check_memory_level {st : MonitorState} {v : ℚ} {ts : DateTime}
    {a : Alert} (h : a ∈ (check_memory st v ts).2) :
    a.level = if v > 90 then AlertLevel.CRITICAL else AlertLevel.WARNING := by
  simp only [check_memory] at h
  split at h
  · simp at h
  · split at h
    · simp at h
      subst h
      rfl
    · simp at h

theorem mem_check_disk_go_level {threshold : ℚ} {paths : List String}
    {ts : DateTime} {ps : List Partition} :
    ∀ {st : MonitorState} {a : Alert},
      a ∈ (check_disk_go threshold paths ts st ps).2 →
      a.level = if a.value > 90 then AlertLevel.CRITICAL else AlertLevel.WARNING := by
  induction ps with
  | nil =>
    intro st a h
    simp [check_disk_go] at h
  | cons p rest ih =>
    intro st a h
    simp only [check_disk_go] at h
    split at h
    · split at h
      · dsimp only at h
        rcases List.mem_append.mp h with h1 | h2
        · split at h1
          · simp at h1
            subst h1
            rfl
          · simp at h1
        · exact ih h2
      · exact ih h
      · exact ih h
    · exact ih h

theorem mem_check_disk_level {st : MonitorState} {parts : List Partition}
    {ts : DateTime} {a : Alert} (h : a ∈ (check_disk st parts ts).2) :
    a.level = if a.value > 90 then AlertLevel.CRITICAL else AlertLevel.WARNING := by
  simp only [check_disk] at h
  split at h
  · simp at h
  · exact mem_check_disk_go_level h

theorem mem_check_network_level {st : MonitorState} {curSent curRecv : Int}
    {now : ℚ} {ts : DateTime} {a : Alert}
    (h : a ∈ (check_network st curSent curRecv now ts).2) :
    a.level = AlertLevel.WARNING := by
  simp only [check_network] at h
  split at h
  · simp at h
  · dsimp only at h
    rcases List.mem_append.mp h with h1 | h1 <;>
    · split at h1
      · simp at h1
        subst h1
        rfl
      · simp at h1

/-- C8 (confirmed): every breaching CPU, memory, or disk alert carries
severity Critical exactly when the observed percentage is strictly above
90 and Warning otherwise, and every network alert carries severity
Warning. -/
theorem severity_tiers :
    (∀ (st : MonitorState) (v : ℚ) (ts : DateTime) (a : Alert),
      a ∈ (check_cpu st v ts).2 →
      a.level = if v > 90 then AlertLevel.CRITICAL else AlertLevel.WARNING)
    ∧ (∀ (st : MonitorState) (v : ℚ) (ts : DateTime) (a : Alert),
      a ∈ (check_memory st v ts).2 →
      a.level = if v > 90 then AlertLevel.CRITICAL else AlertLevel.WARNING)
    ∧ (∀ (st : MonitorState) (parts : List Partition) (ts : DateTime) (a : Alert),
      a ∈ (check_disk st parts ts).2 →
      a.level = if a.value > 90 then AlertLevel.CRITICAL else AlertLevel.WARNING)
    ∧ (∀ (st : MonitorState) (curSent curRecv : Int) (now : ℚ) (ts : DateTime)
        (a : Alert),
      a ∈ (check_network st curSent curRecv now ts).2 →
      a.level = AlertLevel.WARNING) :=
  ⟨fun _ _ _ _ h => mem_check_cpu_level h,
   fun _ _ _ _ h => mem_check_memory_level h,
   fun _ _ _ _ h => mem_check_disk_level h,
   fun _ _ _ _ _ _ h => mem_check_network_level h⟩

/-- Fresh default-config monitor used for concrete check evaluations. -/
def c8_state : MonitorState := initial_state default_config ⟨0, 0⟩ 0 0 0

/-- The alert `check_cpu` emits for a 95% reading under the defaults. -/
def cpu95_alert : Alert :=
  ⟨.CRITICAL, "CPU", "Использование CPU превысило порог", 95, 80, ⟨0, 0⟩⟩

/-- The alert `check_memory` emits for an 85% reading under the defaults. -/
def mem85_alert : Alert :=
  ⟨.WARNING, "Память", "Использование памяти превысило порог", 85, 80, ⟨0, 0⟩⟩

/-- The alert `check_disk` emits for a 95% root-mount reading under the
defaults. -/
def disk95_alert : Alert :=
  ⟨.CRITICAL, "Диск /", "Использование диска превысило порог", 95, 80, ⟨0, 0⟩⟩

/-- The alert `check_network` emits for 20 MiB sent over 1 s under the
defaults. -/
def net20_alert : Alert :=
  ⟨.WARNING, "Сеть (исходящий трафик)", "Скорость отправки превысила порог", 20, 10, ⟨0, 0⟩⟩

theorem cpu95_alert_mem : cpu95_alert ∈ (check_cpu c8_state 95 ⟨0, 0⟩).2 := by
  simp [check_cpu, c8_state, initial_state, default_config, cpu95_alert]
  all_goals norm_num

theorem mem85_alert_mem : mem85_alert ∈ (check_memory c8_state 85 ⟨0, 0⟩).2 := by
  simp [check_memory, c8_state, initial_state, default_config, mem85_alert]
  all_goals norm_num

theorem disk95_alert_mem :
    disk95_alert ∈ (check_disk c8_state [⟨"/", .ok 95⟩] ⟨0, 0⟩).2 := by
  simp [check_disk, check_disk_go, c8_state, initial_state, default_config, disk95_alert]
  all_goals norm_num

theorem net20_alert_mem :
    net20_alert ∈ (check_network c8_state 20971520 0 1 ⟨0, 0⟩).2 := by
  simp [check_network, net_speed, net_time_diff, c8_state, initial_state,
    default_config, net20_alert]
  all_goals norm_num

/-- Witness for `severity_tiers`: concrete breaching readings in each
category. -/
theorem severity_tiers_witness :
    (cpu95_alert ∈ (check_cpu c8_state 95 ⟨0, 0⟩).2
      ∧ cpu95_alert.level
          = if (95 : ℚ) > 90 then AlertLevel.CRITICAL else AlertLevel.WARNING)
    ∧ (mem85_alert ∈ (check_memory c8_state 85 ⟨0, 0⟩).2
      ∧ mem85_alert.level
          = if (85 : ℚ) > 90 then AlertLevel.CRITICAL else AlertLevel.WARNING)
    ∧ (disk95_alert ∈ (check_disk c8_state [⟨"/", .ok 95⟩] ⟨0, 0⟩).2
      ∧ disk95_alert.level
          = if disk95_alert.value > 90 then AlertLevel.CRITICAL else AlertLevel.WARNING)
    ∧ (net20_alert ∈ (check_network c8_state 20971520 0 1 ⟨0, 0⟩).2
      ∧ net20_alert.level = AlertLevel.WARNING) :=
  ⟨⟨cpu95_alert_mem, severity_tiers.1 c8_state 95 ⟨0, 0⟩ cpu95_alert cpu95_alert_mem⟩,
   ⟨mem85_alert_mem, severity_tiers.2.1 c8_state 85 ⟨0, 0⟩ mem85_alert mem85_alert_mem⟩,
   ⟨disk95_alert_mem,
    severity_tiers.2.2.1 c8_state [⟨"/", .ok 95⟩] ⟨0, 0⟩ disk95_alert disk95_alert_mem⟩,
   ⟨net20_alert_mem,
    severity_tiers.2.2.2 c8_state 20971520 0 1 ⟨0, 0⟩ net20_alert net20_alert_mem⟩⟩

/-! ## Permission errors during the disk check -/

theorem check_disk_go_perm_skip (threshold : ℚ) (paths : List String)
    (ts : DateTime) (p : Partition) (hp : p.usage = .permDenied)
    (post : List Partition) :
    ∀ (pre : List Partition) (st : MonitorState),
      check_disk_go threshold paths ts st (pre ++ p :: post)
        = check_disk_go threshold paths ts st (pre ++ post) := by
  intro pre
  induction pre with
  | nil =>
    intro st
    simp only [List.nil_append, check_disk_go, hp]
    split <;> rfl
  | cons q rest ih =>
    intro st
    simp only [List.cons_append, check_disk_go]
    split
    · split
      · simp only [List.append_eq]
        rw [ih]
      · exact ih _
      · exact ih _
    · exact ih _

/-- C9 (confirmed): a mount whose usage read raises a `PermissionError` is
skipped without aborting `check_disk` — the result, state update and alert
list alike, is exactly that of running the check over the remaining
mounts, so every other configured mount is still evaluated and can still
produce alerts. -/
theorem disk_perm_denied_skipped (st : MonitorState) (pre post : List Partition)
    (p : Partition) (ts : DateTime) (hp : p.usage = .permDenied) :
    check_disk st (pre ++ p :: post) ts = check_disk st (pre ++ post) ts := by
  unfold check_disk
  dsimp only
  split
  · rfl
  · exact check_disk_go_perm_skip _ _ _ _ hp _ _ _

/-- A root partition whose usage read raises `PermissionError`. -/
def perm_denied_part : Partition := ⟨"/", .permDenied⟩

/-- Witness for `disk_perm_denied_skipped`: an unreadable root mount
followed by a readable breaching one; the check still alerts on the
readable mount. -/
theorem disk_perm_denied_skipped_witness :
    perm_denied_part.usage = .permDenied
    ∧ check_disk c8_state [perm_denied_part, ⟨"/", .ok 95⟩] ⟨0, 0⟩
        = check_disk c8_state [⟨"/", .ok 95⟩] ⟨0, 0⟩ :=
  ⟨rfl, disk_perm_denied_skipped c8_state [] [⟨"/", .ok 95⟩] perm_denied_part ⟨0, 0⟩ rfl⟩

/-! ## Produced severities -/

/-- C10 (confirmed): every alert any of the four resource check functions
constructs has severity WARNING or CRITICAL; the INFO and ERROR members of
the severity enum are never produced by threshold evaluation. -/
theorem alert_levels_warning_or_critical :
    ∀ (st : MonitorState) (v m : ℚ) (parts : List Partition)
      (curSent curRecv : Int) (now : ℚ) (ts : DateTime) (a : Alert),
      a ∈ (check_cpu st v ts).2 ++ (check_memory st m ts).2
          ++ (check_disk st parts ts).2
          ++ (check_network st curSent curRecv now ts).2 →
      a.level = AlertLevel.WARNING ∨ a.level = AlertLevel.CRITICAL := by
  intro st v m parts curSent curRecv now ts a h
  rcases List.mem_append.mp h with h123 | h4
  on_goal 2 => exact Or.inl (mem_check_network_level h4)
  rcases List.mem_append.mp h123 with h12 | h3
  on_goal 2 =>
    rw [mem_check_disk_level h3]
    split
    · exact Or.inr rfl
    · exact Or.inl rfl
  rcases List.mem_append.mp h12 with h1 | h2
  · rw [mem_check_cpu_level h1]
    split
    · exact Or.inr rfl
    · exact Or.inl rfl
  · rw [mem_check_memory_level h2]
    split
    · exact Or.inr rfl
    · exact Or.inl rfl

/-- Witness for `alert_levels_warning_or_critical`: the concrete CPU alert
inside a four-category batch of breaching readings. -/
theorem alert_levels_warning_or_critical_witness :
    cpu95_alert.level = AlertLevel.WARNING ∨ cpu95_alert.level = AlertLevel.CRITICAL :=
  alert_levels_warning_or_critical c8_state 95 85 [⟨"/", .ok 95⟩] 20971520 0 1
    ⟨0, 0⟩ cpu95_alert
    (List.mem_append_left _ (List.mem_append_left _ (List.mem_append_left _ cpu95_alert_mem)))
